import Mathlib

/-!
# Verification of the similarity retrieval engine of RAGLinkSuggestionTool

A shallow embedding of the core of the repository: the configuration
constants (`config.py`), the vector-store search layer
(`utils/embeddings.py`, class `EmbeddingsManager`) and the similarity
search layer (`utils/similarity.py`, class `SimilaritySearcher`).

Modelling decisions:
* Scores are rationals (`ℚ`): the claims under scrutiny are exact
  arithmetic statements (`similarity = 1 - d/2`, inclusive thresholds),
  stated over the idealised reals the code's comments use.
* The ChromaDB vector store is modelled as its observable capability:
  a list of stored entries in insertion order, together with a distance
  oracle `dist : query text → entry → ℚ` standing for the cosine
  distance between the query embedding and the entry's embedding.
  `similarity_search_with_score` returns the `k` entries nearest to the
  query, sorted by ascending distance (ties in insertion order).
* An `EmbeddingsManager` whose `self.vectorstore` is still `None` is an
  `Option Vectorstore` that is `none`; every method that touches
  `self.vectorstore.get()` in that state raises, which the similarity
  layer catches.
* Python's `list.sort` is a stable sort; it is embedded as a stable
  insertion sort, which is extensionally equal to any stable sort under
  the same key.
-/

namespace RAGLink

/-- One stored record of the ChromaDB collection: `metadata['url']`,
`metadata['title']` and the embedded `page_content`
(built as `title + "\n\n" + content` at ingestion). -/
structure DocEntry where
  url : String
  title : String
  content : String
deriving DecidableEq, Repr

/-- The vector store: entries in insertion order plus the cosine-distance
oracle of the embedding geometry (query text to stored entry). -/
structure Vectorstore where
  entries : List DocEntry
  dist : String → DocEntry → ℚ

/-- One element of the list `EmbeddingsManager.search_similar` returns
(`utils/embeddings.py` lines 261-266). -/
structure SimilarPost where
  url : String
  title : String
  content : String
  similarity : ℚ
deriving DecidableEq, Repr

/-- A `SimilarPost` after `SimilaritySearcher.find_similar_posts` has added
its 1-based `rank` field (`utils/similarity.py` lines 56-57). -/
structure RankedPost where
  url : String
  title : String
  content : String
  similarity : ℚ
  rank : Nat
deriving DecidableEq, Repr

/-- The two `ValueError`s `search_similar` raises
(`utils/embeddings.py` lines 226 and 239). -/
inductive SearchError where
  | storeUninitialized : SearchError
  | urlNotFound : String → SearchError
deriving DecidableEq, Repr

/-! ## Configuration constants (`config.py`) -/

/-- Constant `Config.TOP_K_RESULTS = 10` (`config.py` line 38). -/
def TOP_K_RESULTS : Nat := 10

/-- Constant `Config.FINAL_SUGGESTIONS = 5` (`config.py` line 39). -/
def FINAL_SUGGESTIONS : Nat := 5

/-- Constant `Config.MIN_SIMILARITY_THRESHOLD = 0.5` (`config.py` line 40). -/
def MIN_SIMILARITY_THRESHOLD : ℚ := 1/2

/-! ## Stable sorts

Python's `list.sort` (and the nearest-neighbour ordering of the vector
store) are stable sorts; both are embedded as insertion sorts, the
canonical stable sort. -/

/-- Insert into a list sorted by ascending distance, before the first
element with a strictly larger or equal-and-later distance (stable). -/
def insertAsc (x : DocEntry × ℚ) : List (DocEntry × ℚ) → List (DocEntry × ℚ)
  | [] => [x]
  | y :: ys => if x.2 ≤ y.2 then x :: y :: ys else y :: insertAsc x ys

/-- Stable sort by ascending distance. -/
def sortAsc : List (DocEntry × ℚ) → List (DocEntry × ℚ)
  | [] => []
  | x :: xs => insertAsc x (sortAsc xs)

/-- Insert into a list sorted by descending similarity, before the first
element with a smaller-or-equal similarity (stable: an element coming
earlier in the original list stays before later equal-score elements). -/
def insertDesc (x : SimilarPost) : List SimilarPost → List SimilarPost
  | [] => [x]
  | y :: ys => if y.similarity ≤ x.similarity then x :: y :: ys else y :: insertDesc x ys

/-- Stable sort by descending similarity: the embedding of
`similar_posts.sort(key=lambda x: x['similarity'], reverse=True)`
(`utils/embeddings.py` line 269). -/
def sortDesc : List SimilarPost → List SimilarPost
  | [] => []
  | x :: xs => insertDesc x (sortDesc xs)

/-! ## `EmbeddingsManager` (`utils/embeddings.py`) -/

/-- The nearest-neighbour query
`self.vectorstore.similarity_search_with_score(query_doc, k)`:
the `k` stored entries closest to the query text under the cosine
distance oracle, ascending by distance. -/
def similarity_search_with_score (vs : Vectorstore) (queryDoc : String) (k : Nat) :
    List (DocEntry × ℚ) :=
  (sortAsc (vs.entries.map (fun e => (e, vs.dist queryDoc e)))).take k

/-- The scan of `utils/embeddings.py` lines 232-236 (also the pattern of
`utils/similarity.py` lines 84-88): walk the store's metadata in order and
return the `page_content` at the first index whose `url` matches. -/
def findQueryDoc (entries : List DocEntry) (queryUrl : String) : Option String :=
  match entries with
  | [] => none
  | e :: rest => if e.url = queryUrl then some e.content else findQueryDoc rest queryUrl

/-- Conversion `similarity = 1 - (score / 2)` (`utils/embeddings.py` line 257):
raw cosine distance mapped onto the [0,1] similarity scale. -/
def toSimilarity (score : ℚ) : ℚ := 1 - score / 2

/-- The result loop of `utils/embeddings.py` lines 248-266: skip the query
post itself, convert distance to similarity, keep a post only when
`similarity >= Config.MIN_SIMILARITY_THRESHOLD`. -/
def collectSimilar (queryUrl : String) : List (DocEntry × ℚ) → List SimilarPost
  | [] => []
  | (doc, score) :: rest =>
    if doc.url = queryUrl then collectSimilar queryUrl rest
    else
      if MIN_SIMILARITY_THRESHOLD ≤ toSimilarity score then
        ⟨doc.url, doc.title, doc.content, toSimilarity score⟩ :: collectSimilar queryUrl rest
      else collectSimilar queryUrl rest

/-- Embedding of `EmbeddingsManager.search_similar` (`utils/embeddings.py` lines 211-271).
`vectorstore = none` is the `self.vectorstore` still-`None` state (raises
`ValueError("Vectorstore not initialized...")`); a query document that is
`None` or the empty string fails the Python truthiness test
`if not query_doc` and raises `ValueError("URL not found in database...")`.
The `k = none` argument is Python's `k=None` defaulting to
`Config.TOP_K_RESULTS`. -/
def search_similar (vectorstore : Option Vectorstore) (queryUrl : String)
    (k : Option Nat) : Except SearchError (List SimilarPost) :=
  let k := k.getD TOP_K_RESULTS
  match vectorstore with
  | none => .error .storeUninitialized
  | some vs =>
    match findQueryDoc vs.entries queryUrl with
    | none => .error (.urlNotFound queryUrl)
    | some queryDoc =>
      if queryDoc = "" then .error (.urlNotFound queryUrl)
      else
        let results := similarity_search_with_score vs queryDoc (k + 1)
        let similarPosts := collectSimilar queryUrl results
        .ok ((sortDesc similarPosts).take k)

/-! ## `SimilaritySearcher` (`utils/similarity.py`) -/

/-- The `for i, result in enumerate(results, 1): result['rank'] = i` loop
(`utils/similarity.py` lines 56-57), started at index `i`. -/
def addRanksFrom (i : Nat) : List SimilarPost → List RankedPost
  | [] => []
  | p :: ps => ⟨p.url, p.title, p.content, p.similarity, i⟩ :: addRanksFrom (i + 1) ps

/-- Embedding of `SimilaritySearcher.find_similar_posts` (`utils/similarity.py`
lines 25-66): delegate to `search_similar` with `k = top_k`
(defaulting to `Config.FINAL_SUGGESTIONS`), return `[]` on an empty
result, attach 1-based ranks otherwise, and catch every exception —
`ValueError` included — returning `[]`. -/
def find_similar_posts (vectorstore : Option Vectorstore) (queryUrl : String)
    (topK : Option Nat) : List RankedPost :=
  let topK := topK.getD FINAL_SUGGESTIONS
  match search_similar vectorstore queryUrl (some topK) with
  | .error _ => []
  | .ok results => addRanksFrom 1 results

/-- Embedding of `SimilaritySearcher.get_post_context` (`utils/similarity.py`
lines 69-94): look the url up in the store's full scan, return the first
`max_chars` characters with `"..."` appended when the content is longer,
the content itself otherwise, `None` when the url is absent, and `None`
when any exception occurs (in particular an uninitialized store). -/
def get_post_context (vectorstore : Option Vectorstore) (url : String)
    (maxChars : Nat) : Option String :=
  match vectorstore with
  | none => none
  | some vs =>
    match findQueryDoc vs.entries url with
    | some content =>
        if maxChars < content.length then some (content.take maxChars ++ "...")
        else some content
    | none => none

/-- Embedding of `SimilaritySearcher.validate_url` (`utils/similarity.py`
lines 97-118): scan the store for the url, `True` at the first match,
`False` otherwise; every exception (an uninitialized store included)
is caught and turned into `False`. -/
def validate_url (vectorstore : Option Vectorstore) (url : String) : Bool :=
  match vectorstore with
  | none => false
  | some vs => vs.entries.any (fun e => e.url = url)

/-- Embedding of `SimilaritySearcher.get_all_urls` (`utils/similarity.py`
lines 121-135): the urls of the full scan with falsy values (the empty
string) filtered out; every exception is caught and turned into `[]`. -/
def get_all_urls (vectorstore : Option Vectorstore) : List String :=
  match vectorstore with
  | none => []
  | some vs => (vs.entries.map (fun e => e.url)).filter (fun u => ¬ u = "")

/-! ## State-passing forms

The Python methods above only ever read `self.vectorstore`
(`.get()` and `similarity_search_with_score` are pure reads); their
state-passing embeddings therefore return the store unchanged. -/

/-- Function `find_similar_posts` as a state transformer on the store. -/
def find_similar_posts_st (vectorstore : Option Vectorstore) (queryUrl : String)
    (topK : Option Nat) : List RankedPost × Option Vectorstore :=
  (find_similar_posts vectorstore queryUrl topK, vectorstore)

/-- Function `get_post_context` as a state transformer on the store. -/
def get_post_context_st (vectorstore : Option Vectorstore) (url : String)
    (maxChars : Nat) : Option String × Option Vectorstore :=
  (get_post_context vectorstore url maxChars, vectorstore)

/-! ## Lemmas about the stable sorts -/

theorem mem_insertAsc {x p : DocEntry × ℚ} {l : List (DocEntry × ℚ)} :
    p ∈ insertAsc x l ↔ p = x ∨ p ∈ l := by
  induction l with
  | nil => simp [insertAsc]
  | cons y ys ih =>
    simp only [insertAsc]
    split
    · simp [List.mem_cons]
    · simp only [List.mem_cons, ih]
      tauto

theorem mem_sortAsc {p : DocEntry × ℚ} {l : List (DocEntry × ℚ)} :
    p ∈ sortAsc l ↔ p ∈ l := by
  induction l with
  | nil => simp [sortAsc]
  | cons x xs ih =>
    simp only [sortAsc, mem_insertAsc, List.mem_cons, ih]

theorem mem_insertDesc {x p : SimilarPost} {l : List SimilarPost} :
    p ∈ insertDesc x l ↔ p = x ∨ p ∈ l := by
  induction l with
  | nil => simp [insertDesc]
  | cons y ys ih =>
    simp only [insertDesc]
    split
    · simp [List.mem_cons]
    · simp only [List.mem_cons, ih]
      tauto

theorem mem_sortDesc {p : SimilarPost} {l : List SimilarPost} :
    p ∈ sortDesc l ↔ p ∈ l := by
  induction l with
  | nil => simp [sortDesc]
  | cons x xs ih =>
    simp only [sortDesc, mem_insertDesc, List.mem_cons, ih]

theorem pairwise_insertDesc {x : SimilarPost} {l : List SimilarPost}
    (h : l.Pairwise (fun a b => b.similarity ≤ a.similarity)) :
    (insertDesc x l).Pairwise (fun a b => b.similarity ≤ a.similarity) := by
  induction l with
  | nil => simp [insertDesc]
  | cons y ys ih =>
    rcases List.pairwise_cons.mp h with ⟨hy, hys⟩
    simp only [insertDesc]
    split
    · rename_i hle
      refine List.pairwise_cons.mpr ⟨?_, h⟩
      intro z hz
      rcases List.mem_cons.mp hz with rfl | hz
      · exact hle
      · exact le_trans (hy z hz) hle
    · rename_i hgt
      refine List.pairwise_cons.mpr ⟨?_, ih hys⟩
      intro z hz
      rcases mem_insertDesc.mp hz with rfl | hz
      · exact le_of_not_le hgt
      · exact hy z hz

theorem sortDesc_pairwise (l : List SimilarPost) :
    (sortDesc l).Pairwise (fun a b => b.similarity ≤ a.similarity) := by
  induction l with
  | nil => simp [sortDesc]
  | cons x xs ih => exact pairwise_insertDesc ih

/-- Inserting an element whose similarity is not `s` does not disturb the
subsequence of elements with similarity `s`. -/
theorem filter_insertDesc_of_ne {s : ℚ} {x : SimilarPost} (hx : ¬ x.similarity = s)
    (l : List SimilarPost) :
    (insertDesc x l).filter (fun p => p.similarity = s)
      = l.filter (fun p => p.similarity = s) := by
  induction l with
  | nil => simp [insertDesc, hx]
  | cons y ys ih =>
    simp only [insertDesc]
    split
    · simp [List.filter_cons, hx]
    · simp only [List.filter_cons, ih]

/-- Inserting an element whose similarity is exactly `s` places it in front
of every stored element with similarity `s`: elements passed over on the way
in have strictly greater similarity. -/
theorem filter_insertDesc_of_eq {s : ℚ} {x : SimilarPost} (hx : x.similarity = s)
    (l : List SimilarPost) :
    (insertDesc x l).filter (fun p => p.similarity = s)
      = x :: l.filter (fun p => p.similarity = s) := by
  induction l with
  | nil => simp [insertDesc, hx]
  | cons y ys ih =>
    simp only [insertDesc]
    split
    · simp [List.filter_cons, hx]
    · rename_i hgt
      have hy : ¬ y.similarity = s := by
        intro h
        exact hgt (h ▸ hx ▸ le_refl s)
      simp only [List.filter_cons, ih, hy]
      simp

/-- Stability of the descending sort: for every similarity value, the
candidates carrying that value appear in the sorted list in exactly their
original order. -/
theorem sortDesc_filter (s : ℚ) (l : List SimilarPost) :
    (sortDesc l).filter (fun p => p.similarity = s)
      = l.filter (fun p => p.similarity = s) := by
  induction l with
  | nil => rfl
  | cons x xs ih =>
    by_cases hx : x.similarity = s
    · simp only [sortDesc, filter_insertDesc_of_eq hx, ih, List.filter_cons, hx]
      simp
    · simp only [sortDesc, filter_insertDesc_of_ne hx, ih, List.filter_cons, hx]
      simp [hx]

/-! ## Lemmas about the query pipeline -/

theorem findQueryDoc_eq_none {entries : List DocEntry} {url : String}
    (h : ∀ e ∈ entries, e.url ≠ url) : findQueryDoc entries url = none := by
  induction entries with
  | nil => rfl
  | cons e rest ih =>
    have he := h e (List.mem_cons_self e rest)
    simp only [findQueryDoc, he, if_neg he]
    exact ih fun e' h' => h e' (List.mem_cons_of_mem e h')

theorem findQueryDoc_of_unique {entries : List DocEntry} {url : String} {e : DocEntry}
    (he : e ∈ entries) (hurl : e.url = url)
    (huniq : ∀ e' ∈ entries, e'.url = url → e' = e) :
    findQueryDoc entries url = some e.content := by
  induction entries with
  | nil => cases he
  | cons f rest ih =>
    simp only [findQueryDoc]
    by_cases hf : f.url = url
    · have hfe : f = e := huniq f (List.mem_cons_self f rest) hf
      subst hfe
      simp [hf]
    · have he' : e ∈ rest := by
        rcases List.mem_cons.mp he with rfl | h
        · exact absurd hurl hf
        · exact h
      simp only [if_neg hf]
      exact ih he' fun e' h' => huniq e' (List.mem_cons_of_mem f h')

/-- Every pair the nearest-neighbour query returns is a stored entry paired
with its distance to the query text. -/
theorem mem_similarity_search {vs : Vectorstore} {queryDoc : String} {n : Nat}
    {e : DocEntry} {score : ℚ}
    (h : (e, score) ∈ similarity_search_with_score vs queryDoc n) :
    e ∈ vs.entries ∧ score = vs.dist queryDoc e := by
  have h1 : (e, score) ∈ sortAsc (vs.entries.map (fun d => (d, vs.dist queryDoc d))) :=
    List.mem_of_mem_take h
  have h2 := mem_sortAsc.mp h1
  rcases List.mem_map.mp h2 with ⟨d, hd, hde⟩
  obtain ⟨rfl, rfl⟩ : d = e ∧ vs.dist queryDoc d = score := by
    constructor <;> [exact congrArg Prod.fst hde; exact congrArg Prod.snd hde]
  exact ⟨hd, rfl⟩

/-- Characterization of the result loop of `search_similar`: a post is
collected exactly when it comes from a returned neighbour that is not the
query itself and whose converted similarity passes the threshold. -/
theorem mem_collectSimilar {queryUrl : String} {results : List (DocEntry × ℚ)}
    {p : SimilarPost} :
    p ∈ collectSimilar queryUrl results ↔
      ∃ doc score, (doc, score) ∈ results ∧ ¬ doc.url = queryUrl ∧
        MIN_SIMILARITY_THRESHOLD ≤ toSimilarity score ∧
        p = ⟨doc.url, doc.title, doc.content, toSimilarity score⟩ := by
  induction results with
  | nil => simp [collectSimilar]
  | cons hd tl ih =>
    obtain ⟨doc, score⟩ := hd
    simp only [collectSimilar]
    split
    · rename_i hurl
      simp only [List.mem_cons, Prod.mk.injEq]
      rw [ih]
      constructor
      · rintro ⟨d, sc, hmem, hrest⟩
        exact ⟨d, sc, Or.inr hmem, hrest⟩
      · rintro ⟨d, sc, ⟨rfl, rfl⟩ | hmem, hne, hth, hp⟩
        · exact absurd hurl hne
        · exact ⟨d, sc, hmem, hne, hth, hp⟩
    · rename_i hurl
      split
      · rename_i hth
        simp only [List.mem_cons, Prod.mk.injEq]
        rw [ih]
        constructor
        · rintro (rfl | ⟨d, sc, hmem, hrest⟩)
          · exact ⟨doc, score, Or.inl ⟨rfl, rfl⟩, hurl, hth, rfl⟩
          · exact ⟨d, sc, Or.inr hmem, hrest⟩
        · rintro ⟨d, sc, ⟨rfl, rfl⟩ | hmem, hne, hth', hp⟩
          · exact Or.inl hp
          · exact Or.inr ⟨d, sc, hmem, hne, hth', hp⟩
      · rename_i hth
        simp only [List.mem_cons, Prod.mk.injEq]
        rw [ih]
        constructor
        · rintro ⟨d, sc, hmem, hrest⟩
          exact ⟨d, sc, Or.inr hmem, hrest⟩
        · rintro ⟨d, sc, ⟨rfl, rfl⟩ | hmem, hne, hth', hp⟩
          · exact absurd hth' hth
          · exact ⟨d, sc, hmem, hne, hth', hp⟩

/-- Unfolding of the successful path of `search_similar`. -/
theorem search_similar_eq_ok {vs : Vectorstore} {queryUrl queryDoc : String} (k : Nat)
    (hfind : findQueryDoc vs.entries queryUrl = some queryDoc) (hqd : ¬ queryDoc = "") :
    search_similar (some vs) queryUrl (some k) =
      .ok ((sortDesc (collectSimilar queryUrl
        (similarity_search_with_score vs queryDoc (k + 1)))).take k) := by
  simp [search_similar, hfind, hqd]

/-- Unfolding of the successful path of `find_similar_posts`. -/
theorem find_similar_posts_eq_ok {vs : Vectorstore} {queryUrl queryDoc : String} (k : Nat)
    (hfind : findQueryDoc vs.entries queryUrl = some queryDoc) (hqd : ¬ queryDoc = "") :
    find_similar_posts (some vs) queryUrl (some k) =
      addRanksFrom 1 ((sortDesc (collectSimilar queryUrl
        (similarity_search_with_score vs queryDoc (k + 1)))).take k) := by
  simp [find_similar_posts, search_similar_eq_ok k hfind hqd]

/-- Every post of a successful `search_similar` result comes from a stored
entry other than the query post, returned by the `k+1` nearest-neighbour
query, with similarity converted from the entry's cosine distance to the
resolved query document and at least the threshold. -/
theorem search_similar_ok_mem {vs : Vectorstore} {queryUrl : String} {k : Nat}
    {results : List SimilarPost}
    (hok : search_similar (some vs) queryUrl (some k) = .ok results)
    {p : SimilarPost} (hp : p ∈ results) :
    ∃ queryDoc, findQueryDoc vs.entries queryUrl = some queryDoc ∧ ¬ queryDoc = "" ∧
      ∃ e, (e, vs.dist queryDoc e) ∈ similarity_search_with_score vs queryDoc (k + 1) ∧
        e ∈ vs.entries ∧ ¬ e.url = queryUrl ∧
        MIN_SIMILARITY_THRESHOLD ≤ toSimilarity (vs.dist queryDoc e) ∧
        p = ⟨e.url, e.title, e.content, toSimilarity (vs.dist queryDoc e)⟩ := by
  rcases hd : findQueryDoc vs.entries queryUrl with _ | queryDoc
  · simp [search_similar, hd] at hok
  · by_cases hqd : queryDoc = ""
    · simp [search_similar, hd, hqd] at hok
    · rw [search_similar_eq_ok k hd hqd] at hok
      injection hok with hok
      subst hok
      have h1 : p ∈ sortDesc (collectSimilar queryUrl
          (similarity_search_with_score vs queryDoc (k + 1))) :=
        List.mem_of_mem_take hp
      have h2 := mem_sortDesc.mp h1
      rcases mem_collectSimilar.mp h2 with ⟨doc, score, hmem, hne, hth, hpe⟩
      obtain ⟨hdoc, rfl⟩ := mem_similarity_search hmem
      exact ⟨queryDoc, rfl, hqd, doc, hmem, hdoc, hne, hth, hpe⟩

/-! ## Lemmas about rank assignment -/

theorem addRanksFrom_length (i : Nat) (l : List SimilarPost) :
    (addRanksFrom i l).length = l.length := by
  induction l generalizing i with
  | nil => rfl
  | cons p ps ih => simp [addRanksFrom, ih]

theorem addRanksFrom_map_rank (i : Nat) (l : List SimilarPost) :
    (addRanksFrom i l).map RankedPost.rank = List.range' i l.length := by
  induction l generalizing i with
  | nil => rfl
  | cons p ps ih => simp [addRanksFrom, List.range', ih]

theorem mem_addRanksFrom {i : Nat} {l : List SimilarPost} {p : RankedPost}
    (h : p ∈ addRanksFrom i l) :
    ∃ q ∈ l, p.url = q.url ∧ p.similarity = q.similarity := by
  induction l generalizing i with
  | nil => cases h
  | cons q qs ih =>
    rcases List.mem_cons.mp h with rfl | h
    · exact ⟨q, List.mem_cons_self q qs, rfl, rfl⟩
    · obtain ⟨r, hr, h1, h2⟩ := ih h
      exact ⟨r, List.mem_cons_of_mem q hr, h1, h2⟩

theorem addRanksFrom_pairwise {i : Nat} {l : List SimilarPost}
    (h : l.Pairwise (fun a b => b.similarity ≤ a.similarity)) :
    (addRanksFrom i l).Pairwise (fun a b => b.similarity ≤ a.similarity) := by
  induction l generalizing i with
  | nil => exact List.Pairwise.nil
  | cons q qs ih =>
    rcases List.pairwise_cons.mp h with ⟨hq, hqs⟩
    refine List.pairwise_cons.mpr ⟨?_, ih hqs⟩
    intro z hz
    obtain ⟨r, hr, _, h2⟩ := mem_addRanksFrom hz
    exact h2 ▸ hq r hr

/-- Every post of a `find_similar_posts` output corresponds (url and
similarity) to a post of a successful `search_similar` result. -/
theorem mem_find_similar_posts {vectorstore : Option Vectorstore} {queryUrl : String}
    {topK : Option Nat} {p : RankedPost}
    (hp : p ∈ find_similar_posts vectorstore queryUrl topK) :
    ∃ results, search_similar vectorstore queryUrl (some (topK.getD FINAL_SUGGESTIONS))
        = .ok results ∧ ∃ q ∈ results, p.url = q.url ∧ p.similarity = q.similarity := by
  simp only [find_similar_posts] at hp
  cases hok : search_similar vectorstore queryUrl (some (topK.getD FINAL_SUGGESTIONS)) with
  | error e => rw [hok] at hp; simp at hp
  | ok results =>
      rw [hok] at hp
      exact ⟨results, rfl, mem_addRanksFrom hp⟩

/-! ## Concrete stores used as witnesses and counterexamples -/

/-- Document A of the §8 scenario of the spec. -/
def entry_a : DocEntry := ⟨"a", "Post A", "alpha body"⟩

/-- Document B of the §8 scenario of the spec. -/
def entry_b : DocEntry := ⟨"b", "Post B", "bravo"⟩

/-- Document C of the §8 scenario of the spec. -/
def entry_c : DocEntry := ⟨"c", "Post C", "charlie"⟩

/-- The distance oracle of the §8 scenario: cosine distances from A of
0.2, 0.8, 1.4 for A, B, C respectively. -/
def scenario_dist (e : DocEntry) : ℚ :=
  if e.url = "a" then 1/5 else if e.url = "b" then 4/5 else 7/5

/-- The store of the §8 scenario: documents A, B, C at cosine distances
0.2, 0.8, 1.4 from A's document text. -/
def scenario_store : Vectorstore :=
  ⟨[entry_a, entry_b, entry_c], fun _ e => scenario_dist e⟩

/-- A store with a boundary candidate: B sits at cosine distance 1 from A's
document text, so its similarity is exactly the 0.5 threshold, while C at
distance 1.2 falls just below it. -/
def boundary_store : Vectorstore :=
  ⟨[entry_a, entry_b, entry_c],
    fun _ e => if e.url = "a" then 0 else if e.url = "b" then 1 else 6/5⟩

/-- A store whose first document has the empty string as its stored text. -/
def empty_text_store : Vectorstore :=
  ⟨[⟨"u", "Empty post", ""⟩, ⟨"v", "Other post", "some body"⟩], fun _ _ => 0⟩

/-! ## The claims -/

/-- Claim C1, counterexample: the identity `"missing"` is absent from
`scenario_store`, yet `find_similar_posts` returns the empty list for it —
and likewise for a query against the uninitialized store — instead of
reporting a typed failure to the caller, so the empty list is not reserved
for the below-threshold case. -/
theorem c1_counterexample :
    (∀ e ∈ scenario_store.entries, ¬ e.url = "missing") ∧
    find_similar_posts (some scenario_store) "missing" (some 5) = [] ∧
    find_similar_posts none "missing" (some 5) = [] := by
  refine ⟨by decide, ?_, rfl⟩
  simp only [find_similar_posts, search_similar, scenario_store, entry_a, entry_b, entry_c,
    findQueryDoc, Option.getD, String.reduceEq, reduceIte]

/-- Claim C1, amended: the store layer `search_similar` does report
`UnknownIdentity` (as `ValueError("URL not found in database")`) and
`StoreUninitialized` (as `ValueError("Vectorstore not initialized")`) to its
caller, but the similarity engine `find_similar_posts` catches both and
silently returns the empty list, indistinguishable from the
nothing-passed-the-threshold outcome. -/
theorem c1_typed_failures_swallowed (vs : Vectorstore) (queryUrl : String) (k : Nat)
    (topK : Option Nat) (habsent : findQueryDoc vs.entries queryUrl = none) :
    search_similar (some vs) queryUrl (some k) = .error (.urlNotFound queryUrl) ∧
    search_similar none queryUrl (some k) = .error .storeUninitialized ∧
    find_similar_posts (some vs) queryUrl topK = [] ∧
    find_similar_posts none queryUrl topK = [] := by
  refine ⟨?_, rfl, ?_, rfl⟩
  · simp [search_similar, habsent]
  · simp [find_similar_posts, search_similar, habsent]

/-- Witness for C1: the amended claim at the concrete store of the scenario
and the absent identity `"missing"`. -/
theorem c1_witness :
    search_similar (some scenario_store) "missing" (some 5)
      = .error (.urlNotFound "missing") ∧
    search_similar none "missing" (some 5) = .error .storeUninitialized ∧
    find_similar_posts (some scenario_store) "missing" (some 5) = [] ∧
    find_similar_posts none "missing" (some 5) = [] :=
  c1_typed_failures_swallowed scenario_store "missing" 5 (some 5) (by decide)

/-- Claim C2: for every store with at least one document whose identity is
the query, no post of the `find_similar_posts` output carries the query
identity — the self-match is removed by comparing identities. -/
theorem c2_no_self_in_results (vs : Vectorstore) (queryUrl : String) (topK : Option Nat)
    (hne : vs.entries ≠ []) (hstored : ∃ e ∈ vs.entries, e.url = queryUrl) :
    ∀ p ∈ find_similar_posts (some vs) queryUrl topK, ¬ p.url = queryUrl := by
  intro p hp
  obtain ⟨results, hok, q, hq, hurl, -⟩ := mem_find_similar_posts hp
  obtain ⟨qd, -, -, e, -, -, hne', -, hpe⟩ := search_similar_ok_mem hok hq
  rw [hurl, hpe]
  exact hne'

/-- Witness for C2: in the scenario store, the post returned for query
`"a"` does not carry identity `"a"`. -/
theorem c2_witness : ¬ (⟨"b", "Post B", "bravo", 3/5, 1⟩ : RankedPost).url = "a" :=
  c2_no_self_in_results scenario_store "a" (some 2) (by decide)
    ⟨entry_a, by decide, by decide⟩
    ⟨"b", "Post B", "bravo", 3/5, 1⟩
    (by
      simp only [find_similar_posts, search_similar, scenario_store, entry_a, entry_b,
        entry_c, findQueryDoc, scenario_dist, similarity_search_with_score, sortAsc,
        insertAsc, collectSimilar, sortDesc, insertDesc, addRanksFrom, toSimilarity,
        MIN_SIMILARITY_THRESHOLD, List.map, List.take, Option.getD, String.reduceEq,
        reduceIte]
      norm_num [sortAsc, insertAsc, collectSimilar, sortDesc, insertDesc, addRanksFrom,
        toSimilarity, MIN_SIMILARITY_THRESHOLD, List.take, String.reduceEq, reduceIte])

/-- Claim C3: when the query resolves, every returned similarity lies in
[0,1] (given that cosine distances are non-negative), similarities are
non-increasing along the list, equal-score candidates keep their original
retrieval order (the sort is stable: filtering the sorted candidate list at
any similarity value gives exactly the filtered unsorted list), ranks form
the dense 1-based sequence `1..n`, and at most `k` posts are returned. -/
theorem c3_result_list_invariants (vs : Vectorstore) (queryUrl queryDoc : String) (k : Nat)
    (hnonneg : ∀ qd e, e ∈ vs.entries → 0 ≤ vs.dist qd e)
    (hfind : findQueryDoc vs.entries queryUrl = some queryDoc)
    (hqd : ¬ queryDoc = "") :
    (∀ p ∈ find_similar_posts (some vs) queryUrl (some k),
        0 ≤ p.similarity ∧ p.similarity ≤ 1) ∧
    (find_similar_posts (some vs) queryUrl (some k)).Pairwise
        (fun a b => b.similarity ≤ a.similarity) ∧
    (find_similar_posts (some vs) queryUrl (some k)).map RankedPost.rank
        = List.range' 1 (find_similar_posts (some vs) queryUrl (some k)).length ∧
    (find_similar_posts (some vs) queryUrl (some k)).length ≤ k ∧
    (∀ s : ℚ,
      (sortDesc (collectSimilar queryUrl
          (similarity_search_with_score vs queryDoc (k + 1)))).filter
          (fun p => p.similarity = s)
        = (collectSimilar queryUrl
            (similarity_search_with_score vs queryDoc (k + 1))).filter
            (fun p => p.similarity = s)) := by
  have heq := find_similar_posts_eq_ok k hfind hqd
  refine ⟨?_, ?_, ?_, ?_, fun s => sortDesc_filter s _⟩
  · intro p hp
    obtain ⟨results, hok, q, hq, -, hsim⟩ := mem_find_similar_posts hp
    obtain ⟨qd', -, -, e, -, hment, -, hth, hpe⟩ := search_similar_ok_mem hok hq
    constructor
    · rw [hsim, hpe]
      have h0 : (0:ℚ) ≤ MIN_SIMILARITY_THRESHOLD := by norm_num [MIN_SIMILARITY_THRESHOLD]
      exact le_trans h0 hth
    · rw [hsim, hpe]
      have h0 := hnonneg qd' e hment
      simp only [toSimilarity]
      linarith
  · rw [heq]
    exact addRanksFrom_pairwise
      (List.Pairwise.sublist (List.take_sublist _ _) (sortDesc_pairwise _))
  · rw [heq, addRanksFrom_map_rank, addRanksFrom_length]
  · rw [heq, addRanksFrom_length, List.length_take]
    exact Nat.min_le_left _ _

/-- Witness for C3: the invariants applied to the scenario store, query
`"a"`, `k = 2`: the returned list has at most 2 entries and its ranks are
the dense sequence starting at 1. -/
theorem c3_witness :
    (find_similar_posts (some scenario_store) "a" (some 2)).length ≤ 2 ∧
    (find_similar_posts (some scenario_store) "a" (some 2)).map RankedPost.rank
      = List.range' 1 (find_similar_posts (some scenario_store) "a" (some 2)).length := by
  have h := c3_result_list_invariants scenario_store "a" "alpha body" 2
    (fun qd e _ => by
      simp only [scenario_store, scenario_dist]
      split
      · norm_num
      · split <;> norm_num)
    (by decide) (by decide)
  exact ⟨h.2.2.2.1, h.2.2.1⟩

/-- Claim C4: every post of a successful `search_similar` result carries the
similarity `1 - d/2` of the raw cosine distance `d` of a stored entry to the
resolved query document, as converted by `toSimilarity`, which maps distance
0 to similarity 1, distance 1 to 0.5, and distance 2 to 0. -/
theorem c4_similarity_formula (vs : Vectorstore) (queryUrl : String) (k : Nat)
    (results : List SimilarPost)
    (hok : search_similar (some vs) queryUrl (some k) = .ok results) :
    (∀ p ∈ results, ∃ queryDoc e,
        findQueryDoc vs.entries queryUrl = some queryDoc ∧
        (e, vs.dist queryDoc e) ∈ similarity_search_with_score vs queryDoc (k + 1) ∧
        p.url = e.url ∧ p.similarity = 1 - (vs.dist queryDoc e) / 2) ∧
    (∀ d : ℚ, toSimilarity d = 1 - d / 2) ∧
    toSimilarity 0 = 1 ∧ toSimilarity 1 = 1/2 ∧ toSimilarity 2 = 0 := by
  refine ⟨?_, fun d => rfl, by norm_num [toSimilarity], by norm_num [toSimilarity],
    by norm_num [toSimilarity]⟩
  intro p hp
  obtain ⟨qd, hfind, -, e, hmem, -, -, -, hpe⟩ := search_similar_ok_mem hok hp
  exact ⟨qd, e, hfind, hmem, by rw [hpe], by rw [hpe]; simp [toSimilarity]⟩

/-- Witness for C4: the formula applied to the scenario store: the query
resolves and the single returned post for `"a"` obeys the conversion, whose
anchor values at distances 0, 1, 2 are 1, 0.5, 0. -/
theorem c4_witness :
    toSimilarity 0 = 1 ∧ toSimilarity 1 = 1/2 ∧ toSimilarity 2 = 0 :=
  (c4_similarity_formula scenario_store "a" 2 [⟨"b", "Post B", "bravo", 3/5⟩]
    (by
      simp only [search_similar, scenario_store, entry_a, entry_b, entry_c, findQueryDoc,
        scenario_dist, similarity_search_with_score, sortAsc, insertAsc, collectSimilar,
        sortDesc, insertDesc, toSimilarity, MIN_SIMILARITY_THRESHOLD, List.map, List.take,
        Option.getD, String.reduceEq, reduceIte]
      norm_num [sortAsc, insertAsc, collectSimilar, sortDesc, insertDesc, toSimilarity,
        MIN_SIMILARITY_THRESHOLD, List.take, String.reduceEq, reduceIte])).2.2

/-- Claim C5: the threshold is an inclusive cutoff. A neighbour (other than
the query itself) whose converted similarity equals
`MIN_SIMILARITY_THRESHOLD` exactly is kept by the filtering loop; a
candidate whose converted similarity is strictly below it is not collected;
and every post of a successful result is at or above the threshold. -/
theorem c5_threshold_inclusive (vs : Vectorstore) (queryUrl queryDoc : String) (n : Nat) :
    (∀ (doc : DocEntry) (score : ℚ),
        (doc, score) ∈ similarity_search_with_score vs queryDoc n →
        ¬ doc.url = queryUrl → toSimilarity score = MIN_SIMILARITY_THRESHOLD →
        (⟨doc.url, doc.title, doc.content, toSimilarity score⟩ : SimilarPost)
          ∈ collectSimilar queryUrl (similarity_search_with_score vs queryDoc n)) ∧
    (∀ (doc : DocEntry) (score : ℚ), toSimilarity score < MIN_SIMILARITY_THRESHOLD →
        (⟨doc.url, doc.title, doc.content, toSimilarity score⟩ : SimilarPost)
          ∉ collectSimilar queryUrl (similarity_search_with_score vs queryDoc n)) ∧
    (∀ k results, search_similar (some vs) queryUrl (some k) = .ok results →
        ∀ p ∈ results, MIN_SIMILARITY_THRESHOLD ≤ p.similarity) := by
  refine ⟨?_, ?_, ?_⟩
  · intro doc score hmem hne hth
    exact mem_collectSimilar.mpr ⟨doc, score, hmem, hne, le_of_eq hth.symm, rfl⟩
  · intro doc score hlt hmem
    obtain ⟨d, sc, -, -, hth, hpe⟩ := mem_collectSimilar.mp hmem
    have : toSimilarity score = toSimilarity sc :=
      congrArg SimilarPost.similarity hpe
    rw [this] at hlt
    exact absurd hth (not_le_of_lt hlt)
  · intro k results hok p hp
    obtain ⟨qd, -, -, e, -, -, -, hth, hpe⟩ := search_similar_ok_mem hok hp
    rw [hpe]
    exact hth

/-- Witness for C5: in `boundary_store`, B sits at distance 1 from the
query document, so its similarity is exactly the 0.5 threshold and it is
collected; C's similarity 0.4 is strictly below and it is not. -/
theorem c5_witness :
    (⟨"b", "Post B", "bravo", toSimilarity 1⟩ : SimilarPost)
      ∈ collectSimilar "a" (similarity_search_with_score boundary_store "alpha body" 3) ∧
    (⟨"c", "Post C", "charlie", toSimilarity (6/5)⟩ : SimilarPost)
      ∉ collectSimilar "a" (similarity_search_with_score boundary_store "alpha body" 3) := by
  constructor
  · exact (c5_threshold_inclusive boundary_store "a" "alpha body" 3).1 entry_b 1
      (by
        simp only [similarity_search_with_score, boundary_store, entry_a, entry_b, entry_c,
          sortAsc, insertAsc, List.map, List.take, String.reduceEq, reduceIte]
        norm_num [sortAsc, insertAsc, List.take, String.reduceEq, reduceIte])
      (by decide)
      (by norm_num [toSimilarity, MIN_SIMILARITY_THRESHOLD])
  · exact (c5_threshold_inclusive boundary_store "a" "alpha body" 3).2.1 entry_c (6/5)
      (by norm_num [toSimilarity, MIN_SIMILARITY_THRESHOLD])

/-- Claim C6: `find_similar_posts` neither reads hidden state nor writes
the store — running it twice in sequence from any store state yields the
same ordered output both times and leaves the store exactly as it was. -/
theorem c6_idempotent_stateless (s : Option Vectorstore) (queryUrl : String)
    (topK : Option Nat) :
    (find_similar_posts_st s queryUrl topK).1
      = (find_similar_posts_st (find_similar_posts_st s queryUrl topK).2 queryUrl topK).1 ∧
    (find_similar_posts_st (find_similar_posts_st s queryUrl topK).2 queryUrl topK).2 = s :=
  ⟨rfl, rfl⟩

/-- Claim C7, counterexample: in the §8 scenario store (distances 0.2, 0.8,
1.4 from A for A, B, C), `find_similar_posts("a", 2)` returns the single
post B with similarity `1 - 0.8/2 = 0.6` and rank 1 — not the similarity
0.9 the claim asserts. -/
theorem c7_counterexample :
    find_similar_posts (some scenario_store) "a" (some 2)
      = [⟨"b", "Post B", "bravo", 3/5, 1⟩] ∧
    ¬ ((3 : ℚ)/5 = 9/10) := by
  constructor
  · simp only [find_similar_posts, search_similar, scenario_store, entry_a, entry_b,
      entry_c, findQueryDoc, scenario_dist, similarity_search_with_score, sortAsc,
      insertAsc, collectSimilar, sortDesc, insertDesc, addRanksFrom, toSimilarity,
      MIN_SIMILARITY_THRESHOLD, List.map, List.take, Option.getD, String.reduceEq,
      reduceIte]
    norm_num [sortAsc, insertAsc, collectSimilar, sortDesc, insertDesc, addRanksFrom,
      toSimilarity, MIN_SIMILARITY_THRESHOLD, List.take, String.reduceEq, reduceIte]
  · norm_num

/-- Claim C7, amended: in the §8 scenario store, `find_similar_posts("a", 2)`
returns exactly one candidate, B with similarity `1 - 0.8/2 = 0.6` and
rank 1; C is excluded because its similarity `1 - 1.4/2 = 0.3` is below the
0.5 threshold, and the second requested slot stays unfilled. -/
theorem c7_scenario :
    find_similar_posts (some scenario_store) "a" (some 2)
      = [⟨"b", "Post B", "bravo", 3/5, 1⟩] ∧
    toSimilarity (7/5) < MIN_SIMILARITY_THRESHOLD ∧
    (find_similar_posts (some scenario_store) "a" (some 2)).length < 2 := by
  refine ⟨?_, by norm_num [toSimilarity, MIN_SIMILARITY_THRESHOLD], ?_⟩ <;>
    · simp only [find_similar_posts, search_similar, scenario_store, entry_a, entry_b,
        entry_c, findQueryDoc, scenario_dist, similarity_search_with_score, sortAsc,
        insertAsc, collectSimilar, sortDesc, insertDesc, addRanksFrom, toSimilarity,
        MIN_SIMILARITY_THRESHOLD, List.map, List.take, Option.getD, String.reduceEq,
        reduceIte]
      norm_num [sortAsc, insertAsc, collectSimilar, sortDesc, insertDesc, addRanksFrom,
        toSimilarity, MIN_SIMILARITY_THRESHOLD, List.take, String.reduceEq, reduceIte]

/-- Claim C8: `get_post_context` returns the stored text unchanged when it
is at most `max_chars` characters long, the first `max_chars` characters
with the `"..."` truncation marker appended when it is longer, and the
not-found signal `none` when no stored entry carries the identity; the
store is left unmodified. -/
theorem c8_get_context (vs : Vectorstore) (url : String) (maxChars : Nat) :
    (∀ e : DocEntry, e ∈ vs.entries → e.url = url →
      (∀ e' ∈ vs.entries, e'.url = url → e' = e) →
      (e.content.length ≤ maxChars →
        get_post_context (some vs) url maxChars = some e.content) ∧
      (maxChars < e.content.length →
        get_post_context (some vs) url maxChars
          = some (e.content.take maxChars ++ "..."))) ∧
    ((∀ e ∈ vs.entries, e.url ≠ url) →
      get_post_context (some vs) url maxChars = none) ∧
    (get_post_context_st (some vs) url maxChars).2 = some vs := by
  refine ⟨?_, ?_, rfl⟩
  · intro e hmem hurl huniq
    have hfind := findQueryDoc_of_unique hmem hurl huniq
    constructor
    · intro hle
      have hnot : ¬ maxChars < e.content.length := not_lt_of_le hle
      simp [get_post_context, hfind, hnot]
    · intro hlt
      simp [get_post_context, hfind, hlt]
  · intro habsent
    simp [get_post_context, findQueryDoc_eq_none habsent]

/-- Witness for C8: in the scenario store, `"bravo"` (5 characters) is cut
to 3 characters plus the marker, returned whole under a larger budget, and
an absent identity yields `none`. -/
theorem c8_witness :
    get_post_context (some scenario_store) "b" 3 = some ("bravo".take 3 ++ "...") ∧
    get_post_context (some scenario_store) "b" 10 = some "bravo" ∧
    get_post_context (some scenario_store) "zzz" 10 = none := by
  refine ⟨?_, ?_, ?_⟩
  · exact ((c8_get_context scenario_store "b" 3).1 entry_b (by decide) (by decide)
      (by decide)).2 (by decide)
  · exact ((c8_get_context scenario_store "b" 10).1 entry_b (by decide) (by decide)
      (by decide)).1 (by decide)
  · exact (c8_get_context scenario_store "zzz" 10).2.1 (by decide)

/-- Claim C9: a store can contain a document with the queried identity whose
stored text is the empty string; `search_similar` then raises the
"URL not found in database" error instead of running the search, because
`if not query_doc` tests the truthiness of the resolved text, while
`validate_url` answers `true` for the same identity. -/
theorem c9_empty_text_treated_unknown :
    (∃ e ∈ empty_text_store.entries, e.url = "u" ∧ e.content = "") ∧
    search_similar (some empty_text_store) "u" (some 5) = .error (.urlNotFound "u") ∧
    validate_url (some empty_text_store) "u" = true := by
  refine ⟨⟨⟨"u", "Empty post", ""⟩, by decide, rfl, rfl⟩, ?_, by decide⟩
  simp only [search_similar, empty_text_store, findQueryDoc, Option.getD,
    String.reduceEq, reduceIte]

/-- Claim C10: against an uninitialized store (`self.vectorstore` still
`None`), the membership and listing operations do not surface a
`StoreUninitialized` failure: `validate_url` answers `false` for every
identity and `get_all_urls` answers the empty list, the caught exception
having been converted to the negative result. -/
theorem c10_uninitialized_membership_ops :
    (∀ url : String, validate_url none url = false) ∧ get_all_urls none = [] :=
  ⟨fun _ => rfl, rfl⟩

end RAGLink
